import Mathlib

/-!
Shallow embedding of the order-claiming and completion-aggregation engine of
the tabledirect repository, together with theorems settling the frozen claims
about it.

The embedding models the relevant database tables (orders, order_items,
users, active_sessions) as lists of records inside a `DBState`, and each
store round-trip of the source functions as a pure state transformation.
Store-level transient errors are out of scope: every modelled round-trip
succeeds, matching the happy path of the source; where a claim is about
failure of a round-trip, the affected function takes an explicit success
flag mirroring how the source reacts (or fails to react) to the returned
error value.

Statuses and identifiers are strings, exactly as in the source.  Timestamps
(`new Date().toISOString()` and `Date.now()` in the source) are passed in as
explicit string parameters, and database-generated row ids as explicit
parameters, so all definitions are pure and executable.
-/

/-- One row of the `order_items` table (columns used by the engine). -/
structure OrderItem where
  id : String
  order_id : String
  claimed_by_user_id : Option String
  claimed_at : Option String
  completed_at : Option String
  status : String
deriving DecidableEq

/-- One row of the `orders` table (columns used by the engine).
`claimed_by` / `claimed_at` are the order-level claim columns used by
`dbHelpers.endSession`; the item-claim engine never reads them. -/
structure Order where
  id : String
  status : String
  claimed_by : Option String
  claimed_at : Option String
  updated_at : String
deriving DecidableEq

/-- One row of the `users` table (columns used by `createKitchenSession`). -/
structure UserRow where
  id : String
  restaurant_id : Option String
deriving DecidableEq

/-- One row of the `active_sessions` table.  The two session-creation paths
in the source write different column subsets, so the record carries the
union of the columns either path touches. -/
structure ActiveSession where
  id : String
  user_id : String
  restaurant_id : String
  session_type : Option String
  station : Option String
  station_id : Option String
  session_token : Option String
  user_name : Option String
  status : String
  last_heartbeat : Option String
  last_seen : Option String
  created_at : Option String
deriving DecidableEq

/-- The visible database state. -/
structure DBState where
  orders : List Order
  order_items : List OrderItem
  users : List UserRow
  active_sessions : List ActiveSession
deriving DecidableEq

/-- The `active_sessions` list after `createKitchenSession(userId, station)`:
look up the user's restaurant (`.single()`; absent user or null restaurant
makes the function return without touching the store), then upsert the
session row keyed on `(user_id, restaurant_id)` (`onConflict:
'user_id,restaurant_id'`): a row with the same key is overwritten in place
with the supplied columns, otherwise a fresh row (id `newId`, generated by
the store) is inserted. -/
def kitchenSessionsAfter (userId station now newId : String) (s : DBState) :
    List ActiveSession :=
  match s.users.find? (fun u => u.id == userId) with
  | none => s.active_sessions
  | some u =>
    match u.restaurant_id with
    | none => s.active_sessions
    | some rid =>
      if ∃ ses ∈ s.active_sessions, ses.user_id = userId ∧ ses.restaurant_id = rid then
        s.active_sessions.map (fun ses =>
          if ses.user_id = userId ∧ ses.restaurant_id = rid then
            { ses with
                session_type := some "kitchen"
                station := some station
                status := "active"
                last_heartbeat := some now
                created_at := some now }
          else ses)
      else
        s.active_sessions ++
          [{ id := newId
             user_id := userId
             restaurant_id := rid
             session_type := some "kitchen"
             station := some station
             station_id := none
             session_token := none
             user_name := none
             status := "active"
             last_heartbeat := some now
             last_seen := none
             created_at := some now }]

/-- `createKitchenSession(userId, station)` from the claim library: only the
`active_sessions` table is touched. -/
def createKitchenSession (userId station now newId : String) (s : DBState) : DBState :=
  { s with active_sessions := kitchenSessionsAfter userId station now newId s }

/-- The read-and-check phase of `claimOrder`: one SELECT of the order's items
followed by two in-memory checks.  The source returns false when the item
list is empty ("No order items found") and false when some item is claimed
by a different user (`item.claimed_by_user_id && item.claimed_by_user_id !==
userId`); it proceeds to the write phase exactly when both checks pass. -/
def claimCheck (orderId userId : String) (s : DBState) : Prop :=
  (s.order_items.filter (fun it => it.order_id == orderId)) ≠ [] ∧
  ¬∃ it ∈ s.order_items.filter (fun it => it.order_id == orderId),
      it.claimed_by_user_id.isSome ∧ it.claimed_by_user_id ≠ some userId

instance (orderId userId : String) (s : DBState) :
    Decidable (claimCheck orderId userId s) := by
  unfold claimCheck; infer_instance

/-- The write phase of `claimOrder`: UPDATE the unclaimed items of the order
(`.eq('order_id', orderId).is('claimed_by_user_id', null)`) to claimed by
`userId`, then UPDATE the order row to `preparing` guarded by `status ==
'pending'`, then (when a station was passed) upsert the kitchen session. -/
def claimWrite (orderId userId now : String) (station : Option String)
    (newId : String) (s : DBState) : DBState :=
  let items := s.order_items.map (fun it =>
    if it.order_id = orderId ∧ it.claimed_by_user_id = none then
      { it with
          claimed_by_user_id := some userId
          claimed_at := some now
          status := "claimed" }
    else it)
  let orders := s.orders.map (fun o =>
    if o.id = orderId ∧ o.status = "pending" then
      { o with status := "preparing", updated_at := now }
    else o)
  let s1 : DBState := { s with order_items := items, orders := orders }
  match station with
  | some st => createKitchenSession userId st now newId s1
  | none => s1

/-- `claimOrder(orderId, userId, station?)`: run the read-and-check phase; if
it fails return false with the state untouched, otherwise apply the write
phase and return true.  (The source performs the empty-items check and the
foreign-claim check as two separate early returns of `false`; `claimCheck`
is their conjunction, and the boolean result and final state agree with the
source on every input.) -/
def claimOrder (orderId userId now : String) (station : Option String)
    (newId : String) (s : DBState) : Bool × DBState :=
  if claimCheck orderId userId s then
    (true, claimWrite orderId userId now station newId s)
  else
    (false, s)

/-- `releaseOrder(orderId, userId)`: UPDATE every item of the order claimed
by `userId` back to unclaimed/pending; then SELECT the items of the order
that are still claimed by anyone; if none remain, UPDATE the order row to
`pending` (unconditionally on its current status).  Returns true on the
happy path. -/
def releaseOrder (orderId userId now : String) (s : DBState) : Bool × DBState :=
  let items := s.order_items.map (fun it =>
    if it.order_id = orderId ∧ it.claimed_by_user_id = some userId then
      { it with claimed_by_user_id := none, claimed_at := none, status := "pending" }
    else it)
  let remaining := items.filter
    (fun it => it.order_id == orderId && it.claimed_by_user_id.isSome)
  let orders :=
    if remaining = [] then
      s.orders.map (fun o =>
        if o.id = orderId then { o with status := "pending", updated_at := now } else o)
    else s.orders
  (true, { s with order_items := items, orders := orders })

/-- `markItemCompleted(itemId, userId)`: UPDATE the item to completed guarded
by `.eq('id', itemId).eq('claimed_by_user_id', userId)`.  A call whose guard
matches no row mutates nothing, and — since an UPDATE matching zero rows is
not an error — still returns true. -/
def markItemCompleted (itemId userId now : String) (s : DBState) : Bool × DBState :=
  (true, { s with order_items := s.order_items.map (fun it =>
    if it.id = itemId ∧ it.claimed_by_user_id = some userId then
      { it with status := "completed", completed_at := some now }
    else it) })

/-- `checkOrderCompletion(orderId)`: SELECT the statuses of the order's
items; if every one is `completed` (`items.every(...)`, vacuously true on an
empty list), UPDATE the order row to `ready` keyed on `id` alone, with no
guard on its current status; otherwise leave the store untouched. -/
def checkOrderCompletion (orderId now : String) (s : DBState) : DBState :=
  let items := s.order_items.filter (fun it => it.order_id == orderId)
  if ∀ it ∈ items, it.status = "completed" then
    { s with orders := s.orders.map (fun o =>
        if o.id = orderId then { o with status := "ready", updated_at := now } else o) }
  else s

/-- `dbHelpers.createSession(userId, restaurantId, userName, stationId?)`
from `src/lib/supabase.ts`: a plain INSERT of a fresh `active_sessions` row
with a per-call session token `session_<userId>_<Date.now()>` — no key on
`(user_id, restaurant_id)`, no upsert.  `nowMs` stands for `Date.now()` and
`newId` for the store-generated row id. -/
def createSession (userId restaurantId userName : String)
    (stationId : Option String) (nowMs newId : String) (s : DBState) : DBState :=
  { s with active_sessions := s.active_sessions ++
      [{ id := newId
         user_id := userId
         restaurant_id := restaurantId
         session_type := none
         station := none
         station_id := stationId
         session_token := some ("session_" ++ userId ++ "_" ++ nowMs)
         user_name := some userName
         status := "active"
         last_heartbeat := none
         last_seen := none
         created_at := none }] }

/-- `terminateSession(sessionId)` from the staff-management page: a single
UPDATE setting the session row to `inactive`.  No other table is touched —
in particular no claim held by the session's worker is released. -/
def terminateSession (sessionId : String) (s : DBState) : DBState :=
  { s with active_sessions := s.active_sessions.map (fun ses =>
      if ses.id = sessionId then { ses with status := "inactive" } else ses) }

/-- `dbHelpers.endSession(sessionId)` from `src/lib/supabase.ts`: first an
UPDATE releasing the order-level claim columns (`orders.claimed_by`,
`orders.claimed_at`, status back to `pending`) of the orders claimed by this
session, then a DELETE of the session row.  The result of the release UPDATE
is discarded by the source (supabase reports failures as a returned `error`
value, which `endSession` never reads), so the DELETE runs whether or not
the release succeeded; `releaseOk` models the outcome of the release
round-trip.  The `order_items` table is not touched on any path. -/
def endSession (sessionId : String) (releaseOk : Bool) (s : DBState) : DBState :=
  let orders :=
    if releaseOk then
      s.orders.map (fun o =>
        if o.claimed_by = some sessionId then
          { o with claimed_by := none, claimed_at := none, status := "pending" }
        else o)
    else s.orders
  { s with orders := orders,
           active_sessions := s.active_sessions.filter (fun ses => ses.id != sessionId) }

/-- Two `claimOrder` calls racing on the same order, interleaved so that both
read-and-check phases (`claimCheck`, the SELECT plus in-memory checks) run
against the same state `s` before either write phase (`claimWrite`) runs —
an interleaving the source permits, since the two store round-trips of
`claimOrder` are separate requests with no transaction around them.  Each
call's boolean is what `claimOrder` returns along this schedule: its check
result, because once the check passes the source always returns true. -/
def racedClaims (orderId w1 w2 t1 t2 : String) (s : DBState) :
    Bool × Bool × DBState :=
  let s1 := if claimCheck orderId w1 s then claimWrite orderId w1 t1 none "" s else s
  let s2 := if claimCheck orderId w2 s then claimWrite orderId w2 t2 none "" s1 else s1
  (decide (claimCheck orderId w1 s), decide (claimCheck orderId w2 s), s2)

/-! ### Sample rows used by the concrete theorems -/

/-- An `order_items` row with the fields the engine reads; `claimed_at` and
`completed_at` start unset. -/
def itm (i oid : String) (cb : Option String) (st : String) : OrderItem :=
  { id := i, order_id := oid, claimed_by_user_id := cb, claimed_at := none,
    completed_at := none, status := st }

/-- An `orders` row with no order-level claim and a fixed initial
`updated_at`. -/
def ord (i st : String) : Order :=
  { id := i, status := st, claimed_by := none, claimed_at := none, updated_at := "t0" }

/-- An active `active_sessions` row for worker `u` at restaurant `r`. -/
def ses (i u r : String) : ActiveSession :=
  { id := i, user_id := u, restaurant_id := r, session_type := none,
    station := none, station_id := none, session_token := none, user_name := none,
    status := "active", last_heartbeat := none, last_seen := none, created_at := none }

/-! ### Helper lemmas -/

theorem listMapId {α : Type} (l : List α) (f : α → α) (h : ∀ x ∈ l, f x = x) :
    l.map f = l := by
  induction l with
  | nil => rfl
  | cons a t ih =>
    simp only [List.map_cons, h a (by simp)]
    rw [ih (fun x hx => h x (by simp [hx]))]

theorem lenFilterMap {α : Type} (l : List α) (f : α → α) (p : α → Bool)
    (h : ∀ x ∈ l, p (f x) = p x) :
    ((l.map f).filter p).length = (l.filter p).length := by
  induction l with
  | nil => rfl
  | cons a t ih =>
    have ht : ∀ x ∈ t, p (f x) = p x := fun x hx => h x (by simp [hx])
    simp only [List.map_cons, List.filter_cons, h a (by simp)]
    cases hpa : p a <;> simp [ih ht]

theorem lenFilterLe {α : Type} (l : List α) (p q : α → Bool)
    (h : ∀ x ∈ l, p x = true → q x = true) :
    (l.filter p).length ≤ (l.filter q).length := by
  induction l with
  | nil => simp
  | cons a t ih =>
    have ht : ∀ x ∈ t, p x = true → q x = true := fun x hx => h x (by simp [hx])
    simp only [List.filter_cons]
    cases hpa : p a
    · cases hqa : q a
      · simpa using ih ht
      · simpa using Nat.le_trans (ih ht) (Nat.le_succ _)
    · rw [h a (by simp) hpa]
      simpa using Nat.succ_le_succ (ih ht)

theorem claimCheck_of {s : DBState} {oid uid : String}
    (h1 : ∃ it ∈ s.order_items, it.order_id = oid)
    (h2 : ∀ it ∈ s.order_items, it.order_id = oid →
        it.claimed_by_user_id = none ∨ it.claimed_by_user_id = some uid) :
    claimCheck oid uid s := by
  obtain ⟨x, hx, ho⟩ := h1
  constructor
  · exact List.ne_nil_of_mem (List.mem_filter.mpr ⟨hx, by simpa using ho⟩)
  · rintro ⟨it, hmem, hsome, hne⟩
    rw [List.mem_filter] at hmem
    rcases h2 it hmem.1 (by simpa using hmem.2) with h | h
    · rw [h] at hsome; simp at hsome
    · exact hne h

theorem not_claimCheck_of_foreign {s : DBState} {oid uid : String}
    (h : ∃ it ∈ s.order_items, it.order_id = oid ∧
        it.claimed_by_user_id.isSome ∧ it.claimed_by_user_id ≠ some uid) :
    ¬ claimCheck oid uid s := by
  rintro ⟨_, h2⟩
  obtain ⟨it, hmem, ho, hs, hne⟩ := h
  exact h2 ⟨it, List.mem_filter.mpr ⟨hmem, by simpa using ho⟩, hs, hne⟩

theorem claimOrder_pos {s : DBState} {oid uid : String} (now : String)
    (station : Option String) (newId : String) (h : claimCheck oid uid s) :
    claimOrder oid uid now station newId s =
      (true, claimWrite oid uid now station newId s) := by
  simp [claimOrder, h]

theorem claimOrder_neg {s : DBState} {oid uid : String} (now : String)
    (station : Option String) (newId : String) (h : ¬ claimCheck oid uid s) :
    claimOrder oid uid now station newId s = (false, s) := by
  simp [claimOrder, h]

theorem claimWrite_order_items (oid uid now : String) (station : Option String)
    (newId : String) (s : DBState) :
    (claimWrite oid uid now station newId s).order_items =
      s.order_items.map (fun it =>
        if it.order_id = oid ∧ it.claimed_by_user_id = none then
          { it with
              claimed_by_user_id := some uid
              claimed_at := some now
              status := "claimed" }
        else it) := by
  cases station <;> rfl

/-! ### C1: claimOrder conflict / claim semantics -/

/-- An order with one item claimed by `w1` and one unclaimed item. -/
def stC1conf : DBState :=
  { orders := [ord "o1" "preparing"],
    order_items := [itm "iA" "o1" (some "w1") "claimed", itm "iB" "o1" none "pending"],
    users := [], active_sessions := [] }

/-- An order with a single unclaimed item. -/
def stC1ok : DBState :=
  { orders := [ord "o1" "pending"],
    order_items := [itm "iA" "o1" none "pending"],
    users := [], active_sessions := [] }

/-- An order row with no items at all. -/
def stC1empty : DBState :=
  { orders := [ord "o1" "pending"], order_items := [],
    users := [], active_sessions := [] }

/-- C1 (counterexample): for the order `o1` with no items, no item of the
order is claimed by a worker different from `w1`, yet
`claimOrder("o1","w1")` returns false — the source fails with "No order
items found" — where the claim as stated demands success. -/
theorem claimOrder_emptyorder_counterexample :
    (¬∃ it ∈ stC1empty.order_items, it.order_id = "o1" ∧
        it.claimed_by_user_id.isSome ∧ it.claimed_by_user_id ≠ some "w1") ∧
    (claimOrder "o1" "w1" "t1" none "n1" stC1empty).1 = false := by
  decide

/-- C1 (amended): if some item of the order is claimed by a worker other
than `uid`, `claimOrder` returns false and the state — in particular every
item's claim owner, claimed-at and status — is exactly unchanged; and
provided the order has at least one item and no item is claimed by a
different worker, the call returns true and sets claim owner `uid`,
claimed-at and status `claimed` on exactly those items of the order whose
claim owner was unset, leaving every other item untouched. -/
theorem claimOrder_conflict_or_claim_unclaimed (s : DBState)
    (oid uid now newId : String) (station : Option String) :
    ((∃ it ∈ s.order_items, it.order_id = oid ∧
        it.claimed_by_user_id.isSome ∧ it.claimed_by_user_id ≠ some uid) →
      claimOrder oid uid now station newId s = (false, s)) ∧
    ((∀ it ∈ s.order_items, it.order_id = oid →
        it.claimed_by_user_id = none ∨ it.claimed_by_user_id = some uid) →
     (∃ it ∈ s.order_items, it.order_id = oid) →
      (claimOrder oid uid now station newId s).1 = true ∧
      (claimOrder oid uid now station newId s).2.order_items =
        s.order_items.map (fun it =>
          if it.order_id = oid ∧ it.claimed_by_user_id = none then
            { it with
                claimed_by_user_id := some uid
                claimed_at := some now
                status := "claimed" }
          else it)) := by
  constructor
  · intro h
    exact claimOrder_neg now station newId (not_claimCheck_of_foreign h)
  · intro h2 h1
    rw [claimOrder_pos now station newId (claimCheck_of h1 h2)]
    exact ⟨rfl, claimWrite_order_items oid uid now station newId s⟩

/-- C1 (witness): on `stC1conf` the foreign-claim branch fires for `w2`, and
on `stC1ok` the success branch fires for `w1`. -/
theorem claimOrder_conflict_or_claim_unclaimed_witness :
    claimOrder "o1" "w2" "t1" none "n1" stC1conf = (false, stC1conf) ∧
    (claimOrder "o1" "w1" "t1" none "n1" stC1ok).1 = true :=
  ⟨(claimOrder_conflict_or_claim_unclaimed stC1conf "o1" "w2" "t1" "n1" none).1
      (by decide),
   ((claimOrder_conflict_or_claim_unclaimed stC1ok "o1" "w1" "t1" "n1" none).2
      (by decide) (by decide)).1⟩

/-! ### C10: claimOrder idempotence for the current owner -/

/-- An order with one item already claimed by `w1` and one unclaimed item. -/
def stC10own : DBState :=
  { orders := [ord "o3" "preparing"],
    order_items := [itm "iC" "o3" (some "w1") "claimed", itm "iD" "o3" none "pending"],
    users := [], active_sessions := [] }

/-- An order row `o4` with no items. -/
def stC10empty : DBState :=
  { orders := [ord "o4" "pending"], order_items := [],
    users := [], active_sessions := [] }

/-- C10 (counterexample): the order `o4` has no items, so every item of it
vacuously has no claim owner, yet `claimOrder("o4","w1")` returns false
where the claim as stated demands true. -/
theorem claimOrder_idempotent_emptyorder_counterexample :
    (∀ it ∈ stC10empty.order_items, it.order_id = "o4" →
        it.claimed_by_user_id = none ∨ it.claimed_by_user_id = some "w1") ∧
    (claimOrder "o4" "w1" "t1" none "n1" stC10empty).1 = false := by
  decide

/-- C10 (amended): for every order with at least one item whose items each
either have no claim owner or are already claimed by `uid`,
`claimOrder` returns true, and every item already owned by `uid` is kept
with its claim owner, claimed-at timestamp and status unchanged (the
identical row is still present in the resulting state). -/
theorem claimOrder_idempotent_for_owner (s : DBState)
    (oid uid now newId : String) (station : Option String)
    (h1 : ∃ it ∈ s.order_items, it.order_id = oid)
    (h2 : ∀ it ∈ s.order_items, it.order_id = oid →
        it.claimed_by_user_id = none ∨ it.claimed_by_user_id = some uid) :
    (claimOrder oid uid now station newId s).1 = true ∧
    ∀ it ∈ s.order_items, it.claimed_by_user_id = some uid →
      it ∈ (claimOrder oid uid now station newId s).2.order_items := by
  rw [claimOrder_pos now station newId (claimCheck_of h1 h2)]
  refine ⟨rfl, ?_⟩
  intro it hmem hown
  show it ∈ (claimWrite oid uid now station newId s).order_items
  rw [claimWrite_order_items]
  have hfix : (if it.order_id = oid ∧ it.claimed_by_user_id = none then
      { it with
          claimed_by_user_id := some uid
          claimed_at := some now
          status := "claimed" }
    else it) = it := by
    rw [if_neg]
    rintro ⟨-, hn⟩
    rw [hown] at hn
    exact Option.noConfusion hn
  have := List.mem_map_of_mem (fun it =>
    if it.order_id = oid ∧ it.claimed_by_user_id = none then
      { it with
          claimed_by_user_id := some uid
          claimed_at := some now
          status := "claimed" }
    else it) hmem
  simpa only [hfix] using this

/-- C10 (witness): re-claiming `o3` as its current owner `w1` returns true
and keeps the already-owned row `iC` unchanged. -/
theorem claimOrder_idempotent_for_owner_witness :
    (claimOrder "o3" "w1" "t2" none "n1" stC10own).1 = true ∧
    itm "iC" "o3" (some "w1") "claimed" ∈
      (claimOrder "o3" "w1" "t2" none "n1" stC10own).2.order_items := by
  have h := claimOrder_idempotent_for_owner stC10own "o3" "w1" "t2" "n1" none
    (by decide) (by decide)
  exact ⟨h.1, h.2 (itm "iC" "o3" (some "w1") "claimed") (by decide) (by decide)⟩

/-! ### C3: markItemCompleted authorization -/

/-- One item of order `o1`, claimed by `w1`. -/
def stC3 : DBState :=
  { orders := [ord "o1" "preparing"],
    order_items := [itm "iA" "o1" (some "w1") "claimed"],
    users := [], active_sessions := [] }

/-- C3 (counterexample): the item `iA` is claimed by `w1`, not by `w2`, yet
`markItemCompleted("iA","w2")` returns true — the guarded UPDATE matches
zero rows, which supabase does not report as an error — where the claim as
stated demands false (`Unauthorized`). -/
theorem markItemCompleted_nonowner_counterexample :
    (∀ it ∈ stC3.order_items, it.id = "iA" → it.claimed_by_user_id ≠ some "w2") ∧
    (markItemCompleted "iA" "w2" "t3" stC3).1 = true := by
  decide

/-- C3 (amended): a `markItemCompleted` call by a worker who is not the
current claim owner of the item mutates nothing — the UPDATE is conditioned
on claim owner `= workerId`, so the state is exactly unchanged — but the
call returns true rather than an `Unauthorized` failure. -/
theorem markItemCompleted_nonowner_noop (s : DBState) (i w now : String)
    (h : ∀ it ∈ s.order_items, it.id = i → it.claimed_by_user_id ≠ some w) :
    markItemCompleted i w now s = (true, s) := by
  unfold markItemCompleted
  have hm : s.order_items.map (fun it =>
      if it.id = i ∧ it.claimed_by_user_id = some w then
        { it with status := "completed", completed_at := some now }
      else it) = s.order_items := by
    refine listMapId _ _ (fun x hx => ?_)
    rw [if_neg]
    rintro ⟨hid, hcb⟩
    exact h x hx hid hcb
  rw [hm]

/-- C3 (witness): completing `iA` as the non-owner `w3` leaves `stC3`
exactly unchanged and returns true. -/
theorem markItemCompleted_nonowner_noop_witness :
    markItemCompleted "iA" "w3" "t3" stC3 = (true, stC3) :=
  markItemCompleted_nonowner_noop stC3 "iA" "w3" "t3" (by decide)

/-! ### C5: completion aggregation -/

/-- A served order whose single item is completed. -/
def stC5served : DBState :=
  { orders := [ord "o1" "served"],
    order_items := [itm "iA" "o1" (some "w1") "completed"],
    users := [], active_sessions := [] }

/-- A preparing order with a still-claimed, uncompleted item. -/
def stC5mixed : DBState :=
  { orders := [ord "o2" "preparing"],
    order_items := [itm "iB" "o2" (some "w1") "claimed"],
    users := [], active_sessions := [] }

/-- C5 (counterexample): the order `o1` has status `served` and every item
completed; `checkOrderCompletion` rewrites its status to `ready` — the
UPDATE is keyed on the id alone, with no guard on the current status — so
aggregation does regress an order from `served`, where the claim as stated
says the status is left unchanged in every case other than becoming
`ready`. -/
theorem checkOrderCompletion_regress_counterexample :
    stC5served.orders.map (fun o => o.status) = ["served"] ∧
    (checkOrderCompletion "o1" "t6" stC5served).orders.map (fun o => o.status) =
      ["ready"] := by
  decide

/-- C5 (amended): `checkOrderCompletion` sets the order's status to `ready`
if and only if every item of the order is completed — but the write is
unconditional on the order's current status, so an order already `ready`,
`served` or `cancelled` whose items are all completed is (re)written to
`ready`, regressing `served` and `cancelled`.  When some item is not
completed the whole state is unchanged, and order items are never
mutated. -/
theorem checkOrderCompletion_ready_iff (s : DBState) (oid now : String) :
    ((∀ it ∈ s.order_items, it.order_id = oid → it.status = "completed") →
      (checkOrderCompletion oid now s).orders =
        s.orders.map (fun o =>
          if o.id = oid then { o with status := "ready", updated_at := now } else o)) ∧
    ((∃ it ∈ s.order_items, it.order_id = oid ∧ it.status ≠ "completed") →
      checkOrderCompletion oid now s = s) ∧
    (checkOrderCompletion oid now s).order_items = s.order_items := by
  refine ⟨?_, ?_, ?_⟩
  · intro h
    have hg : ∀ it ∈ s.order_items.filter (fun it => it.order_id == oid),
        it.status = "completed" := by
      intro it hit
      have hm := List.mem_filter.mp hit
      exact h it hm.1 (by simpa using hm.2)
    simp only [checkOrderCompletion]
    rw [if_pos hg]
  · rintro ⟨it, hmem, ho, hs⟩
    have hg : ¬ ∀ x ∈ s.order_items.filter (fun x => x.order_id == oid),
        x.status = "completed" := by
      intro hall
      exact hs (hall it (List.mem_filter.mpr ⟨hmem, by simpa using ho⟩))
    simp only [checkOrderCompletion]
    rw [if_neg hg]
  · simp only [checkOrderCompletion]
    by_cases hg : ∀ it ∈ s.order_items.filter (fun it => it.order_id == oid),
        it.status = "completed"
    · rw [if_pos hg]
    · rw [if_neg hg]

/-- C5 (witness): on `stC5served` every item is completed and the order row
becomes `ready`; on `stC5mixed` an item is not completed and the state is
exactly unchanged. -/
theorem checkOrderCompletion_ready_iff_witness :
    (checkOrderCompletion "o1" "t6" stC5served).orders =
      stC5served.orders.map (fun o =>
        if o.id = "o1" then { o with status := "ready", updated_at := "t6" } else o) ∧
    checkOrderCompletion "o2" "t6" stC5mixed = stC5mixed :=
  ⟨(checkOrderCompletion_ready_iff stC5served "o1" "t6").1 (by decide),
   (checkOrderCompletion_ready_iff stC5mixed "o2" "t6").2.1 (by decide)⟩

/-! ### C7: release by a worker holding nothing -/

/-- The exact result of `releaseOrder`, written out once so the claim
theorems can case on its pieces; holds by unfolding the definition. -/
theorem releaseOrder_eq (oid uid now : String) (s : DBState) :
    releaseOrder oid uid now s = (true,
      { s with
          order_items := s.order_items.map (fun it =>
            if it.order_id = oid ∧ it.claimed_by_user_id = some uid then
              { it with claimed_by_user_id := none, claimed_at := none, status := "pending" }
            else it),
          orders :=
            if (s.order_items.map (fun it =>
                if it.order_id = oid ∧ it.claimed_by_user_id = some uid then
                  { it with claimed_by_user_id := none, claimed_at := none, status := "pending" }
                else it)).filter
                (fun it => it.order_id == oid && it.claimed_by_user_id.isSome) = [] then
              s.orders.map (fun o =>
                if o.id = oid then { o with status := "pending", updated_at := now } else o)
            else s.orders }) :=
  rfl

/-- A cancelled order with one unclaimed item. -/
def stC7 : DBState :=
  { orders := [ord "o1" "cancelled"],
    order_items := [itm "iA" "o1" none "pending"],
    users := [], active_sessions := [] }

/-- An order whose only item is claimed by `w1`. -/
def stC7w : DBState :=
  { orders := [ord "o1" "preparing"],
    order_items := [itm "iA" "o1" (some "w1") "claimed"],
    users := [], active_sessions := [] }

/-- C7 (counterexample): `w9` holds no claim on any item of the cancelled
order `o1`, yet `releaseOrder("o1","w9")` rewrites the order's status from
`cancelled` to `pending` — because no item of the order is claimed by
anyone, the unconditional order-status reset fires — where the claim as
stated says the order's status is identical before and after. -/
theorem releaseOrder_nonholder_counterexample :
    (∀ it ∈ stC7.order_items, it.order_id = "o1" → it.claimed_by_user_id ≠ some "w9") ∧
    stC7.orders.map (fun o => o.status) = ["cancelled"] ∧
    (releaseOrder "o1" "w9" "t7" stC7).1 = true ∧
    (releaseOrder "o1" "w9" "t7" stC7).2.orders.map (fun o => o.status) =
      ["pending"] := by
  decide

/-- C7 (amended): releasing when the worker holds no claim on any item of
the order reports no error and mutates no order item; and provided some
item of the order is still claimed by someone, the whole state — the
order's status included — is exactly unchanged.  (When no item of the order
is claimed by anyone, the call additionally resets the order's status to
`pending`, a mutation whenever the status was not already `pending`.) -/
theorem releaseOrder_nonholder (s : DBState) (oid uid now : String)
    (h : ∀ it ∈ s.order_items, it.order_id = oid → it.claimed_by_user_id ≠ some uid) :
    (releaseOrder oid uid now s).1 = true ∧
    (releaseOrder oid uid now s).2.order_items = s.order_items ∧
    ((∃ it ∈ s.order_items, it.order_id = oid ∧ it.claimed_by_user_id.isSome) →
      (releaseOrder oid uid now s).2 = s) := by
  have hm : s.order_items.map (fun it =>
      if it.order_id = oid ∧ it.claimed_by_user_id = some uid then
        { it with claimed_by_user_id := none, claimed_at := none, status := "pending" }
      else it) = s.order_items := by
    refine listMapId _ _ (fun x hx => ?_)
    rw [if_neg]
    rintro ⟨ho, hc⟩
    exact h x hx ho hc
  rw [releaseOrder_eq, hm]
  refine ⟨rfl, rfl, ?_⟩
  rintro ⟨it, hmem, ho, hsome⟩
  have hne : s.order_items.filter
      (fun it => it.order_id == oid && it.claimed_by_user_id.isSome) ≠ [] :=
    List.ne_nil_of_mem (List.mem_filter.mpr ⟨hmem, by simp [ho, hsome]⟩)
  rw [if_neg hne]

/-- C7 (witness): `w2` holds nothing on `o1` while `w1` still holds its
item, so the release is a full no-op. -/
theorem releaseOrder_nonholder_witness :
    (releaseOrder "o1" "w2" "t7" stC7w).1 = true ∧
    (releaseOrder "o1" "w2" "t7" stC7w).2 = stC7w := by
  have h := releaseOrder_nonholder stC7w "o1" "w2" "t7" (by decide)
  exact ⟨h.1, h.2.2 (by decide)⟩

/-! ### C2: racing claims -/

/-- A pending order with one unclaimed item — the race target. -/
def stC2 : DBState :=
  { orders := [ord "o1" "pending"],
    order_items := [itm "i1" "o1" none "pending"],
    users := [], active_sessions := [] }

/-- C2 (code bug): along the interleaving in which both workers' read-check
phases run before either write phase — possible because `claimOrder` is a
separate SELECT followed by an UPDATE with no transaction, despite its doc
comment saying it claims atomically and prevents races — both `w1` and `w2`
observe `Claimed` (true); the final state shows `w2`'s write matched zero
rows, yet its call still reported success.  Sequentially the second call
does return false, confirming the interleaving is what breaks the
exactly-one guarantee. -/
theorem claimOrder_race_both_succeed :
    (racedClaims "o1" "w1" "w2" "t1" "t2" stC2).1 = true ∧
    (racedClaims "o1" "w1" "w2" "t1" "t2" stC2).2.1 = true ∧
    (racedClaims "o1" "w1" "w2" "t1" "t2" stC2).2.2.order_items.map
      (fun it => it.claimed_by_user_id) = [some "w1"] ∧
    (claimOrder "o1" "w2" "t2" none "n2"
      (claimOrder "o1" "w1" "t1" none "n1" stC2).2).1 = false := by
  decide

/-! ### C4: completion does not trigger aggregation -/

/-- A preparing order whose single item is claimed by `w1`. -/
def stC4 : DBState :=
  { orders := [ord "o1" "preparing"],
    order_items := [itm "iA" "o1" (some "w1") "claimed"],
    users := [], active_sessions := [] }

/-- C4 (code bug): after `w1` successfully completes the last item of `o1`,
every item of the order is completed, yet the order's status is still
`preparing` — `markItemCompleted` never invokes `checkOrderCompletion`
(which has no caller anywhere in the repository).  Running the aggregator
on the same state would have produced `ready`, showing the missing
invocation is exactly what breaks the claim. -/
theorem markItemCompleted_no_aggregation :
    (markItemCompleted "iA" "w1" "t4" stC4).1 = true ∧
    (∀ it ∈ (markItemCompleted "iA" "w1" "t4" stC4).2.order_items,
        it.order_id = "o1" → it.status = "completed") ∧
    (markItemCompleted "iA" "w1" "t4" stC4).2.orders.map (fun o => o.status) =
      ["preparing"] ∧
    (checkOrderCompletion "o1" "t4"
      (markItemCompleted "iA" "w1" "t4" stC4).2).orders.map (fun o => o.status) =
      ["ready"] := by
  decide

/-! ### C6: completed is not terminal under release -/

/-- An order where `w1` has completed item `iA` and still holds item `iB`. -/
def stC6 : DBState :=
  { orders := [ord "o1" "preparing"],
    order_items := [itm "iA" "o1" (some "w1") "completed",
                    itm "iB" "o1" (some "w1") "claimed"],
    users := [], active_sessions := [] }

/-- C6 (code bug): `releaseOrder` rewrites every item of the order whose
claim owner is the releasing worker — completed items included, since
completion does not clear the claim-owner column — so the completed item
`iA` is reset to `pending` with its claim owner unset: the status
`completed` is not terminal. -/
theorem releaseOrder_resets_completed_item :
    stC6.order_items.map (fun it => it.status) = ["completed", "claimed"] ∧
    (releaseOrder "o1" "w1" "t6" stC6).2.order_items.map (fun it => it.status) =
      ["pending", "pending"] ∧
    (releaseOrder "o1" "w1" "t6" stC6).2.order_items.map
      (fun it => it.claimed_by_user_id) = [none, none] := by
  decide

/-! ### C8: session closure and claim release -/

/-- Worker `u1` holds a claimed item and has the active session `s1`. -/
def stC8 : DBState :=
  { orders := [],
    order_items := [itm "iA" "o1" (some "u1") "claimed"],
    users := [], active_sessions := [ses "s1" "u1" "r1"] }

/-- C8 (code bug): `terminateSession` marks the session inactive and touches
no other table, so the item claimed by the session's worker keeps its claim
owner and status — the claim is orphaned.  `dbHelpers.endSession` never
touches `order_items` either, and because it discards the error of its
release UPDATE, it deletes the session even when the release round-trip
fails. -/
theorem sessionClose_orphans_claims :
    stC8.order_items.map (fun it => it.claimed_by_user_id) = [some "u1"] ∧
    (terminateSession "s1" stC8).active_sessions.map (fun x => x.status) =
      ["inactive"] ∧
    (terminateSession "s1" stC8).order_items = stC8.order_items ∧
    (endSession "s1" true stC8).order_items = stC8.order_items ∧
    (endSession "s1" false stC8).active_sessions = [] := by
  decide

/-! ### C9: one active session per (worker, restaurant) pair -/

theorem filterNilOf {α : Type} (l : List α) (p : α → Bool)
    (h : ∀ x ∈ l, p x = false) : l.filter p = [] := by
  induction l with
  | nil => rfl
  | cons a t ih =>
    simp [List.filter_cons, h a (by simp), ih (fun x hx => h x (by simp [hx]))]

/-- Number of `active_sessions` rows for the pair `(u, r)`, any status. -/
def pairRows (u r : String) (l : List ActiveSession) : Nat :=
  (l.filter (fun x => x.user_id == u && x.restaurant_id == r)).length

/-- Number of active `active_sessions` rows for the pair `(u, r)`. -/
def activePairRows (u r : String) (l : List ActiveSession) : Nat :=
  (l.filter (fun x => x.user_id == u && x.restaurant_id == r &&
      x.status == "active")).length

/-- Worker `u1` of restaurant `r1` already has the active session `s1`. -/
def stC9 : DBState :=
  { orders := [], order_items := [],
    users := [{ id := "u1", restaurant_id := some "r1" }],
    active_sessions := [ses "s1" "u1" "r1"] }

/-- C9 (counterexample): `(u1, r1)` already has one active session;
`dbHelpers.createSession` for the same pair is a plain INSERT with a fresh
per-call session token, so afterwards the pair has two active sessions —
the prior one is not replaced. -/
theorem createSession_duplicate_counterexample :
    activePairRows "u1" "r1" stC9.active_sessions = 1 ∧
    activePairRows "u1" "r1"
      (createSession "u1" "r1" "Alice" none "99" "s2" stC9).active_sessions = 2 := by
  decide

/-- C9 (amended): the claim-library path `createKitchenSession` does upsert
keyed on `(user_id, restaurant_id)`: given the store's uniqueness of that
key (at most one row for the pair) it leaves at most one active session for
the pair, replacing rather than adding.  `dbHelpers.createSession`, by
contrast, inserts unconditionally, so opening a session through it can give
the same pair a second active session. -/
theorem createKitchenSession_single_active_session (s : DBState)
    (u rid station now newId : String)
    (hu : s.users.find? (fun x => x.id == u) =
        some { id := u, restaurant_id := some rid })
    (hrow : pairRows u rid s.active_sessions ≤ 1) :
    activePairRows u rid
      (createKitchenSession u station now newId s).active_sessions ≤ 1 := by
  simp only [createKitchenSession, kitchenSessionsAfter, hu]
  by_cases hex : ∃ x ∈ s.active_sessions, x.user_id = u ∧ x.restaurant_id = rid
  · rw [if_pos hex]
    have h1 : activePairRows u rid (s.active_sessions.map (fun x =>
        if x.user_id = u ∧ x.restaurant_id = rid then
          { x with
              session_type := some "kitchen"
              station := some station
              status := "active"
              last_heartbeat := some now
              created_at := some now }
        else x)) ≤ pairRows u rid (s.active_sessions.map (fun x =>
        if x.user_id = u ∧ x.restaurant_id = rid then
          { x with
              session_type := some "kitchen"
              station := some station
              status := "active"
              last_heartbeat := some now
              created_at := some now }
        else x)) := by
      refine lenFilterLe _ _ _ (fun x _ hp => ?_)
      simp only [Bool.and_eq_true] at hp ⊢
      exact hp.1
    have h2 : pairRows u rid (s.active_sessions.map (fun x =>
        if x.user_id = u ∧ x.restaurant_id = rid then
          { x with
              session_type := some "kitchen"
              station := some station
              status := "active"
              last_heartbeat := some now
              created_at := some now }
        else x)) = pairRows u rid s.active_sessions := by
      refine lenFilterMap _ _ _ (fun x _ => ?_)
      by_cases hk : x.user_id = u ∧ x.restaurant_id = rid
      · rw [if_pos hk]
      · rw [if_neg hk]
    exact le_trans h1 (h2 ▸ hrow)
  · rw [if_neg hex]
    push_neg at hex
    unfold activePairRows
    rw [List.filter_append]
    have hl : s.active_sessions.filter (fun x =>
        x.user_id == u && x.restaurant_id == rid && x.status == "active") = [] := by
      refine filterNilOf _ _ (fun x hx => ?_)
      by_cases h1 : x.user_id = u
      · by_cases h2 : x.restaurant_id = rid
        · exact absurd h2 (hex x hx h1)
        · simp [h2]
      · simp [h1]
    rw [hl]
    simp

/-- C9 (witness): opening a kitchen session for `(u1, r1)` while `s1` is
already active keeps the pair at a single active session. -/
theorem createKitchenSession_single_active_session_witness :
    activePairRows "u1" "r1"
      (createKitchenSession "u1" "grill" "t9" "s3" stC9).active_sessions ≤ 1 :=
  createKitchenSession_single_active_session stC9 "u1" "r1" "grill" "t9" "s3"
    (by decide) (by decide)
